import Mathlib

/-!
Shallow embedding of `astroquery/esasky/core.py` (class `ESASkyClass`).

Modelling conventions:
* A Python `dict` is modelled by the sequence of its insertions, a
  `List (key × value)` in insertion order (no key in the lists below is
  ever written twice on the executions the theorems talk about).
* Raised Python exceptions are modelled by `Except PyError`.
* External collaborators (HTTP transport, coordinate parsing, unit
  conversion, `%f` number formatting, VOTABLE decoding) are fields of an
  `Env` record: the code under verification only pipes their results
  around, and every theorem quantifies over them.
* The two registry JSON documents (`observations`, `catalogs`) are lists
  of `RegistryEntry` records mirroring the JSON fields the code reads.
-/

/-- Python exceptions raised by the module. -/
inductive PyError where
  | valueError (msg : String)
  | indexError (msg : String)
  deriving DecidableEq, Repr

/-- One entry of a registry JSON document, with the fields
`core.py` reads: `mission`, `tapTable`, `metadata` (only the `tapName`
of each metadata pair is ever used), `isSurveyMission`, `sourceLimit`,
`posTapColumn`, `orderBy`. -/
structure RegistryEntry where
  mission : String
  tapTable : String
  metadata : List String
  isSurveyMission : Bool
  sourceLimit : Nat
  posTapColumn : String
  orderBy : String
  deriving DecidableEq, Repr

/-- Result of `commons.coord_to_radec`: right ascension in hours and
declination in degrees. -/
structure Coord where
  raHours : ℚ
  dec : ℚ
  deriving DecidableEq, Repr

/-- A parsed VOTABLE result: its list of rows. -/
abbrev Table := List String

/-- The external collaborators of the module. -/
structure Env where
  observations : List RegistryEntry
  catalogs : List RegistryEntry
  parseCoord : String → Coord
  radiusToDeg : String → ℚ
  fmt : ℚ → String
  tapResult : List (String × String) → Table

/-- A value that can stand for one mission in a query result: the parsed
table (normal mode) or the raw request payload (`get_query_payload`). -/
inductive MissionTable where
  | payload (p : List (String × String))
  | table (t : Table)
  deriving DecidableEq, Repr

/-- Python `len` on the per-mission result. -/
def MissionTable.len : MissionTable → Nat
  | .payload p => p.length
  | .table t => t.length

/-- The value returned by `query_region_maps`/`query_region_catalogs`:
a `TableList` in normal mode, the plain payload dict in payload mode. -/
inductive RegionResult where
  | tableList (entries : List (String × MissionTable))
  | payloadDict (entries : List (String × MissionTable))
  deriving DecidableEq, Repr

deriving instance DecidableEq for Except

/-- A Python value given as mission/catalog selector: a string, a list of
strings, or anything else. -/
inductive PyInput where
  | str (s : String)
  | list (l : List String)
  | other
  deriving DecidableEq, Repr

/-- Python `str.lower` (ASCII, as all names the module compares are). -/
def pyLower (s : String) : String := String.mk (s.data.map Char.toLower)

/-- Python `str.upper` (ASCII). -/
def pyUpper (s : String) : String := String.mk (s.data.map Char.toUpper)

/-- `list_maps`: the `mission` field of every observations-registry entry. -/
def list_maps (env : Env) : List String :=
  env.observations.map (·.mission)

/-- `list_catalogs`: the `mission` field of every catalogs-registry entry. -/
def list_catalogs (env : Env) : List String :=
  env.catalogs.map (·.mission)

/-- `_sanatize_input_mission`. -/
def sanatize_input_mission (env : Env) : PyInput → Except PyError (List String)
  | .list l => .ok l
  | .str s =>
      if pyLower s = "all" then .ok (list_maps env) else .ok [s]
  | .other => .error (.valueError "Mission must be either a string or a list of missions")

/-- `_sanatize_input_catalogs`.  Note: the source resolves `"all"` through
`self.list_maps()`, i.e. through the observations registry. -/
def sanatize_input_catalogs (env : Env) : PyInput → Except PyError (List String)
  | .list l => .ok l
  | .str s =>
      if pyLower s = "all" then .ok (list_maps env) else .ok [s]
  | .other => .error (.valueError "Catalog must be either a string or a list of catalogs")

/-- `_find_mission_tap_table_name`: first case-insensitive match on the
`mission` field, else `ValueError`. -/
def find_mission_tap_table_name (json : List RegistryEntry) (mission_name : String) :
    Except PyError String :=
  match json.find? (fun e => pyLower e.mission = pyLower mission_name) with
  | some e => .ok e.tapTable
  | none => .error (.valueError ("Input " ++ mission_name ++ " not available."))

/-- `_find_mission_parameters_in_json`: first exact match on `tapTable`,
else `ValueError`. -/
def find_mission_parameters_in_json (mission_tap_name : String)
    (json : List RegistryEntry) : Except PyError RegistryEntry :=
  match json.find? (fun e => e.tapTable = mission_tap_name) with
  | some e => .ok e
  | none => .error (.valueError ("Input tap name " ++ mission_tap_name ++ " not available."))

/-- The comma-separated column list built by the loop shared by
`_build_observation_query` and `_build_catalog_query`: every column gets
a leading space, every column but the last a trailing comma. -/
def metadata_tap_names : List String → String
  | [] => ""
  | [x] => " " ++ x
  | x :: rest => " " ++ x ++ "," ++ metadata_tap_names rest

/-- `_build_observation_query`. -/
def build_observation_query (env : Env) (coordinates : Coord) (radius : String)
    (json : RegistryEntry) : String :=
  let ra := coordinates.raHours * 15
  let dec := coordinates.dec
  let radiusDeg := env.radiusToDeg radius
  let select_query := "SELECT DISTINCT"
  let names := metadata_tap_names json.metadata
  let from_query := " FROM " ++ json.tapTable
  let where_query :=
    if json.isSurveyMission then " WHERE 1=CONTAINS(pos," else " WHERE 1=CONTAINS(fov,"
  let region_query :=
    " CIRCLE('ICRS', " ++ env.fmt ra ++ ", " ++ env.fmt dec ++ ", " ++ env.fmt radiusDeg ++ "));"
  select_query ++ names ++ from_query ++ where_query ++ region_query

/-- `_build_catalog_query`. -/
def build_catalog_query (env : Env) (coordinates : Coord) (radius : String)
    (json : RegistryEntry) : String :=
  let ra := coordinates.raHours * 15
  let dec := coordinates.dec
  let radiusDeg := env.radiusToDeg radius
  let select_query := "SELECT TOP " ++ toString json.sourceLimit ++ " "
  let names := metadata_tap_names json.metadata
  let from_query := " FROM " ++ json.tapTable
  let where_query :=
    " WHERE 1=CONTAINS(" ++ json.posTapColumn ++ ", CIRCLE('ICRS', " ++ env.fmt ra ++ ", " ++
      env.fmt dec ++ ", " ++ env.fmt radiusDeg ++ "))"
  let order_by_query := " ORDER BY " ++ json.orderBy ++ ";"
  select_query ++ names ++ from_query ++ where_query ++ order_by_query

/-- `_create_request_payload`: the fixed four-key TAP request dict. -/
def create_request_payload (query : String) : List (String × String) :=
  [("REQUEST", "doQuery"), ("LANG", "ADQL"), ("FORMAT", "VOTABLE"), ("QUERY", query)]

/-- `_query_region_maps` (the per-mission helper). -/
def query_region_maps_single (env : Env) (coordinates : Coord) (radius : String)
    (observation_name : String) (get_query_payload : Bool) : Except PyError MissionTable := do
  let observation_tap_name ← find_mission_tap_table_name env.observations observation_name
  let params ← find_mission_parameters_in_json observation_tap_name env.observations
  let query := build_observation_query env coordinates radius params
  let request_payload := create_request_payload query
  if get_query_payload then
    pure (.payload request_payload)
  else
    pure (.table (env.tapResult request_payload))

/-- `_query_region_catalog` (the per-catalog helper). -/
def query_region_catalog_single (env : Env) (coordinates : Coord) (radius : String)
    (catalog_name : String) (get_query_payload : Bool) : Except PyError MissionTable := do
  let catalog_tap_name ← find_mission_tap_table_name env.catalogs catalog_name
  let params ← find_mission_parameters_in_json catalog_tap_name env.catalogs
  let query := build_catalog_query env coordinates radius params
  let request_payload := create_request_payload query
  if get_query_payload then
    pure (.payload request_payload)
  else
    pure (.table (env.tapResult request_payload))

/-- `_store_query_result_maps`: one per-mission query each, keeping only
results of positive `len` under the upper-cased mission name. -/
def store_query_result_maps (env : Env) (coordinates : Coord) (radius : String)
    (get_query_payload : Bool) : List String → Except PyError (List (String × MissionTable))
  | [] => .ok []
  | mission :: rest => do
      let mission_table ← query_region_maps_single env coordinates radius mission get_query_payload
      let tail ← store_query_result_maps env coordinates radius get_query_payload rest
      pure (if 0 < mission_table.len then (pyUpper mission, mission_table) :: tail else tail)

/-- `_store_query_result_catalogs`. -/
def store_query_result_catalogs (env : Env) (coordinates : Coord) (radius : String)
    (get_query_payload : Bool) : List String → Except PyError (List (String × MissionTable))
  | [] => .ok []
  | catalog :: rest => do
      let catalog_table ← query_region_catalog_single env coordinates radius catalog get_query_payload
      let tail ← store_query_result_catalogs env coordinates radius get_query_payload rest
      pure (if 0 < catalog_table.len then (pyUpper catalog, catalog_table) :: tail else tail)

/-- `query_region_maps` (public method; the position is a string and so
always passes `_sanatize_input_position`, likewise the radius). -/
def query_region_maps (env : Env) (position : String) (radius : String)
    (missions : PyInput) (get_query_payload : Bool) : Except PyError RegionResult := do
  let sanatized_missions ← sanatize_input_mission env missions
  let coordinates := env.parseCoord position
  let query_result ← store_query_result_maps env coordinates radius get_query_payload sanatized_missions
  if get_query_payload then
    pure (.payloadDict query_result)
  else
    pure (.tableList query_result)

/-- `query_region_catalogs` (public method). -/
def query_region_catalogs (env : Env) (position : String) (radius : String)
    (catalogs : PyInput) (get_query_payload : Bool) : Except PyError RegionResult := do
  let sanatized_catalogs ← sanatize_input_catalogs env catalogs
  let coordinates := env.parseCoord position
  let query_result ← store_query_result_catalogs env coordinates radius get_query_payload sanatized_catalogs
  if get_query_payload then
    pure (.payloadDict query_result)
  else
    pure (.tableList query_result)

/-- `query_object_maps`: runs `query_region_maps` with the `"0 arcmin"`
sentinel radius and falls off the end of the function body, so the Python
method evaluates the region query and returns `None`. -/
def query_object_maps (env : Env) (position : String) (missions : PyInput)
    (get_query_payload : Bool) : Except PyError (Option RegionResult) := do
  let _ ← query_region_maps env position "0 arcmin" missions get_query_payload
  pure none

/-- `query_object_catalogs`: same shape as `query_object_maps`. -/
def query_object_catalogs (env : Env) (position : String) (catalogs : PyInput)
    (get_query_payload : Bool) : Except PyError (Option RegionResult) := do
  let _ ← query_region_catalogs env position "0 arcmin" catalogs get_query_payload
  pure none

/-- `_create_mission_directory`: the directory path that gets created. -/
def create_mission_directory (mission : String) (download_folder : String) : String :=
  if download_folder = "Maps" then
    "Maps" ++ "/" ++ mission
  else
    download_folder ++ "/" ++ "Maps" ++ "/" ++ mission

/-! ## Other translated operations -/

/-- The client state fields `_parse_xml_table` assigns on failure
(`self.response`, `self.table_parse_error`). -/
structure ClientState where
  response : Option String
  table_parse_error : Option String
  deriving DecidableEq, Repr

/-- `astroquery.exceptions.TableParseError` as raised here: it is
constructed with a message string only. -/
structure TableParseError where
  msg : String
  deriving DecidableEq, Repr

/-- The literal message `_parse_xml_table` raises with. -/
def tableParseErrorMessage : String :=
  "Failed to parse ESASky VOTABLE result! The raw response can be found in self.response, and the error in self.table_parse_error."

/-- `_parse_xml_table`: `decode` stands for the VOTABLE pipeline
(`votable.parse` in non-pedantic mode, `get_first_table`, `to_table`);
on its failure the state gets the response and the exception and a
`TableParseError` with the fixed message is raised. -/
def parse_xml_table (decode : String → Except String Table) (self : ClientState)
    (response : String) : ClientState × Except TableParseError Table :=
  match decode response with
  | .ok t => (self, .ok t)
  | .error ex =>
      ({ response := some response, table_parse_error := some ex },
       .error { msg := tableParseErrorMessage })

/-! ## String helpers mirroring Python's `in`, `index` and slicing -/

/-- Number of positions of `s` at which `p` occurs (occurrences may
overlap); used to state "contains exactly one … clause". -/
def countOcc (p : List Char) : List Char → Nat
  | [] => 0
  | c :: s => (if p.isPrefixOf (c :: s) then 1 else 0) + countOcc p s

/-- Python `sub in s` on strings. -/
def pyIn (sub s : List Char) : Bool :=
  s.tails.any fun t => sub.isPrefixOf t

/-- Python `s.index(p, start)` as an `Option`: the least `i ≥ start` at
which `p` occurs in `s`. -/
def firstOcc (p s : List Char) (start : Nat) : Option Nat :=
  (List.range (s.length + 1)).find? fun i => decide (start ≤ i) && p.isPrefixOf (s.drop i)

/-- `_extract_file_name_from_response_header`, on the value of the
`Content-Disposition` header.  Python's `str.index` raises `ValueError`
when the substring is absent, and the `content_disposition[start_index]`
character access raises `IndexError` when the index is out of range. -/
def extract_file_name_from_response_header (content_disposition : String) :
    Except PyError String :=
  let s := content_disposition.data
  match firstOcc "filename=".data s 0 with
  | none => .error (.valueError "substring not found")
  | some idx =>
    let start0 := idx + 9
    match s[start0]? with
    | none => .error (.indexError "string index out of range")
    | some c =>
      let start := if c = '"' then start0 + 1 else start0
      if pyIn ".fits".data (s.drop start) then
        match firstOcc ".fits".data s (start + 1) with
        | some e => .ok (String.mk ((s.drop start).take (e + 5 - start)))
        | none => .error (.valueError "substring not found")
      else if pyIn ".FTZ".data (s.drop start) then
        match firstOcc ".FTZ".data s (start + 1) with
        | some e => .ok (String.mk ((s.drop start).take (e + 4 - start)))
        | none => .error (.valueError "substring not found")
      else if pyIn ".tar".data (s.drop start) then
        match firstOcc ".tar".data s (start + 1) with
        | some e => .ok (String.mk ((s.drop start).take (e + 4 - start)))
        | none => .error (.valueError "substring not found")
      else
        .error (.valueError ("Could not find file name in header. Content disposition: " ++
          content_disposition ++ "."))

/-- Whether a raised exception is a `ValueError`. -/
def isValueError {α : Type} : Except PyError α → Bool
  | .error (.valueError _) => true
  | _ => false

/-! ## The Herschel multi-file archive path -/

/-- The member test of `_get_herschel_observation`: the lower-cased member
name contains `hspire` or `hpacs`. -/
def isHerschelMember (name : String) : Bool :=
  pyIn "hspire".data (pyLower name).data || pyIn "hpacs".data (pyLower name).data

/-- `_remove_extra_herschel_directory`: strips everything up to and
including the first `/` of the member name (Python `index` raises
`ValueError` when there is no `/`). -/
def remove_extra_herschel_directory (file_and_directory_name : String) :
    Except PyError String :=
  match file_and_directory_name.data.findIdx? (fun c => c = '/') with
  | some j => .ok (String.mk (file_and_directory_name.data.drop (j + 1)))
  | none => .error (.valueError "substring not found")

/-- The member name after `_remove_extra_herschel_directory` on a name
containing a `/`: everything past the first `/`. -/
def stripTopDir (name : String) : String :=
  match name.data.findIdx? (fun c => c = '/') with
  | some j => String.mk (name.data.drop (j + 1))
  | none => name

/-- The member loop of `_get_herschel_observation`: `i` is the running
index into `filters`; `filters[i]` raises `IndexError` when the list is
exhausted.  The observation dict is modelled by its assignment sequence;
an opened data product is identified by the path it is opened from. -/
def herschel_loop (directory_path : String) (filters : List String) :
    List String → Nat → Except PyError (List (String × String))
  | [], _ => .ok []
  | member :: rest, i =>
    if isHerschelMember member then
      match remove_extra_herschel_directory member with
      | .error e => .error e
      | .ok new_name =>
        match filters[i]? with
        | none => .error (.indexError "list index out of range")
        | some f =>
          match herschel_loop directory_path filters rest (i + 1) with
          | .error e => .error e
          | .ok tail => .ok ((f, directory_path ++ new_name) :: tail)
    else herschel_loop directory_path filters rest i

/-- `_get_herschel_observation`, with the downloaded tar archive
abstracted by its ordered member-name list. -/
def get_herschel_observation (members : List String) (directory_path : String)
    (filters : List String) : Except PyError (List (String × String)) :=
  herschel_loop directory_path filters members 0

/-! ## Spec-side definitions (used to state C6/C7) -/

/-- The spec's "comma-joined in order with no trailing comma". -/
def commaJoin : List String → String
  | [] => ""
  | [x] => x
  | x :: rest => x ++ ", " ++ commaJoin rest

/-- An identifier free of the capitals `O` and `T` (every really occurring
TAP identifier is lower case), so that it can neither start nor continue
an occurrence of `ORDER BY` or `TOP `. -/
def cleanChars (s : String) : Prop := 'O' ∉ s.data ∧ 'T' ∉ s.data

instance (s : String) : Decidable (cleanChars s) := by
  unfold cleanChars
  infer_instance

/-- No occurrence of `p` can start strictly inside `L` and continue past
its end: no nonempty proper-length tail of `L` is a prefix of `p`. -/
def GoodCut (p L : List Char) : Prop :=
  ∀ t ∈ L.tails, t ≠ [] → t.length < p.length → ¬ t.isPrefixOf p

instance (p L : List Char) : Decidable (GoodCut p L) := by
  unfold GoodCut
  infer_instance

/-! ## Concrete registry/environment used by the closed theorems -/

/-- A demo observations-registry entry. -/
def obsEntryDemo : RegistryEntry :=
  { mission := "HST", tapTable := "mv_hst", metadata := ["a", "b"],
    isSurveyMission := false, sourceLimit := 1000, posTapColumn := "pos",
    orderBy := "name" }

/-- A demo catalogs-registry entry. -/
def catEntryDemo : RegistryEntry :=
  { mission := "HSC", tapTable := "mv_hsc", metadata := ["c"],
    isSurveyMission := true, sourceLimit := 2000, posTapColumn := "pos",
    orderBy := "name" }

/-- A demo environment: one observation mission `HST`, one catalog `HSC`,
every external collaborator a constant function. -/
def envDemo : Env :=
  { observations := [obsEntryDemo], catalogs := [catEntryDemo],
    parseCoord := fun _ => { raHours := 10, dec := 69 },
    radiusToDeg := fun _ => 0,
    fmt := fun _ => "0.000000",
    tapResult := fun _ => ["row"] }

/-- A demo observations-registry entry whose query result is empty. -/
def xmmEntryDemo : RegistryEntry :=
  { mission := "XMM", tapTable := "mv_xmm", metadata := ["m"],
    isSurveyMission := true, sourceLimit := 5, posTapColumn := "pos",
    orderBy := "name" }

/-- A demo catalogs-registry entry whose query result is empty. -/
def gaiaEntryDemo : RegistryEntry :=
  { mission := "Gaia", tapTable := "mv_gaia", metadata := ["g"],
    isSurveyMission := false, sourceLimit := 7, posTapColumn := "pos",
    orderBy := "name" }

/-- The `QUERY` value of a request payload. -/
def payloadQuery (pay : List (String × String)) : String :=
  (pay.getD 3 ("", "")).2

/-- A demo environment on which the `XMM` and `Gaia` queries return zero
rows and the `HST` and `HSC` queries one row. -/
def envZero : Env :=
  { observations := [obsEntryDemo, xmmEntryDemo],
    catalogs := [catEntryDemo, gaiaEntryDemo],
    parseCoord := fun _ => { raHours := 0, dec := 0 },
    radiusToDeg := fun _ => 0,
    fmt := fun _ => "0.0",
    tapResult := fun pay =>
      if pyIn "mv_xmm".data (payloadQuery pay).data ||
          pyIn "mv_gaia".data (payloadQuery pay).data then [] else ["row"] }

/-- The payload-mode result of the demo `HST` region query. -/
def demoMapPayloadResult : List (String × MissionTable) :=
  [("HST", MissionTable.payload (create_request_payload
      (build_observation_query envDemo (envDemo.parseCoord "m101") "14 arcmin" obsEntryDemo)))]

/-! ## C1 -/

/-- C1: refuted — `query_object_maps` and `query_object_catalogs` run the
region query with the `"0 arcmin"` sentinel but have no `return`
statement, so they return Python `None` and never the region query's
mapping: here the region queries return a one-table `TableList` while the
object queries return `none`. -/
theorem query_object_maps_returns_none :
    query_object_maps envDemo "m101" (.str "HST") false = .ok none ∧
    query_region_maps envDemo "m101" "0 arcmin" (.str "HST") false =
      .ok (.tableList [("HST", .table ["row"])]) ∧
    query_object_catalogs envDemo "m101" (.str "HSC") false = .ok none ∧
    query_region_catalogs envDemo "m101" "0 arcmin" (.str "HSC") false =
      .ok (.tableList [("HSC", .table ["row"])]) := by
  refine ⟨rfl, by decide, rfl, by decide⟩

/-! ## C2 -/

/-- C2: the list and non-`"all"`-string and invalid-input cases behave as
claimed, but `"all"` resolves through `list_maps`, i.e. through the
*observations* registry document: on `envDemo` it yields `["HST"]` while
the catalogs registry lists `["HSC"]`. -/
theorem sanatize_input_catalogs_all_uses_observations :
    (∀ env : Env, ∀ l : List String,
      sanatize_input_catalogs env (.list l) = .ok l) ∧
    (∀ env : Env, sanatize_input_catalogs env (.str "2XMMi") = .ok ["2XMMi"]) ∧
    (∀ env : Env, sanatize_input_catalogs env .other =
      .error (.valueError "Catalog must be either a string or a list of catalogs")) ∧
    sanatize_input_catalogs envDemo (.str "all") = .ok (list_maps envDemo) ∧
    list_maps envDemo = ["HST"] ∧
    list_catalogs envDemo = ["HSC"] := by
  refine ⟨fun env l => rfl, fun env => rfl, fun env => rfl, by decide, by decide, by decide⟩

/-! ## C3 -/

/-- C3: refuted as stated — for a non-default download folder the created
directory is `<download_folder>/Maps/<mission>`, not
`<download_folder>/<mission>`. -/
theorem create_mission_directory_not_flat :
    create_mission_directory "HST" "MyFolder" = "MyFolder/Maps/HST" ∧
    create_mission_directory "HST" "MyFolder" ≠ "MyFolder" ++ "/" ++ "HST" := by
  decide

/-- C3 amended: with the default folder `"Maps"` the directory is
`Maps/<mission>` (which is `<download_folder>/<mission>`); with any other
download folder a `Maps` level is inserted:
`<download_folder>/Maps/<mission>`. -/
theorem create_mission_directory_cases (mission download_folder : String) :
    (download_folder = "Maps" →
      create_mission_directory mission download_folder =
        download_folder ++ "/" ++ mission) ∧
    (download_folder ≠ "Maps" →
      create_mission_directory mission download_folder =
        download_folder ++ "/" ++ "Maps" ++ "/" ++ mission) := by
  constructor <;> intro h <;> simp [create_mission_directory, h]

/-- C3 amended, witnessed at a concrete non-default folder. -/
theorem create_mission_directory_cases_witness :
    create_mission_directory "HST" "MyFolder" =
      "MyFolder" ++ "/" ++ "Maps" ++ "/" ++ "HST" :=
  (create_mission_directory_cases "HST" "MyFolder").2 (by decide)

/-! ## C4 -/

/-- C4: refuted — the raised `TableParseError` holds only the fixed
message, so two distinct failing responses raise equal errors; the error
cannot carry the response (nor the decode exception). -/
theorem parse_xml_table_error_forgets_response :
    "<bad>responseA" ≠ "<bad>responseB" ∧
    (parse_xml_table (fun _ => .error "malformed") ⟨none, none⟩ "<bad>responseA").2 =
      (parse_xml_table (fun _ => .error "malformed") ⟨none, none⟩ "<bad>responseB").2 := by
  exact ⟨by decide, rfl⟩

/-- C4 amended: on any decoding failure a `TableParseError` carrying only
the fixed message is raised, and the original response together with the
underlying exception is stored on the client object
(`self.response`, `self.table_parse_error`) for caller inspection. -/
theorem parse_xml_table_stores_diagnostics_on_self
    (decode : String → Except String Table) (self : ClientState)
    (response ex : String) (h : decode response = .error ex) :
    parse_xml_table decode self response =
      ({ response := some response, table_parse_error := some ex },
       .error { msg := tableParseErrorMessage }) := by
  simp [parse_xml_table, h]

/-- C4 amended witness. -/
theorem parse_xml_table_stores_diagnostics_witness :
    parse_xml_table (fun _ => .error "votable rejected") ⟨none, none⟩ "resp" =
      ({ response := some "resp", table_parse_error := some "votable rejected" },
       .error { msg := tableParseErrorMessage }) :=
  parse_xml_table_stores_diagnostics_on_self _ _ _ _ rfl

/-! ## C5 / C10 -/

/-- Monadic bind on `Except` propagates an error (reduction helper). -/
theorem except_bind_error {α β : Type} (e : PyError) (f : α → Except PyError β) :
    (Except.error e >>= f) = Except.error e := rfl

/-- Monadic bind on `Except` applies the continuation to a success. -/
theorem except_bind_ok {α β : Type} (a : α) (f : α → Except PyError β) :
    (Except.ok a >>= f) = f a := rfl

/-- `Functor.map` on `Except` propagates an error. -/
theorem except_map_error {α β : Type} (g : α → β) (e : PyError) :
    (g <$> (Except.error e : Except PyError α)) = Except.error e := rfl

/-- `Functor.map` on `Except` maps a success. -/
theorem except_map_ok {α β : Type} (g : α → β) (a : α) :
    (g <$> (Except.ok a : Except PyError α)) = Except.ok (g a) := rfl

/-- `pure` on `Except` is `Except.ok`. -/
theorem except_pure {α : Type} (a : α) : (pure a : Except PyError α) = Except.ok a := rfl

/-- What a successful `_store_query_result_maps` run guarantees: every
stored value has positive `len`, every queried mission's per-mission
query succeeded, and every positive-`len` per-mission result is stored
under the upper-cased mission name. -/
theorem store_maps_ok_spec (env : Env) (coords : Coord) (radius : String) (gp : Bool) :
    ∀ (missions : List String) (result : List (String × MissionTable)),
      store_query_result_maps env coords radius gp missions = .ok result →
      (∀ p ∈ result, 0 < p.2.len) ∧
      (∀ m ∈ missions, ∃ t, query_region_maps_single env coords radius m gp = .ok t) ∧
      (∀ m ∈ missions, ∀ t, query_region_maps_single env coords radius m gp = .ok t →
        0 < t.len → (pyUpper m, t) ∈ result) := by
  intro missions
  induction missions with
  | nil =>
    intro result h
    simp only [store_query_result_maps, Except.ok.injEq] at h
    subst h
    exact ⟨by simp, by simp, by simp⟩
  | cons m rest ih =>
    intro result h
    cases hq : query_region_maps_single env coords radius m gp with
    | error e => simp [store_query_result_maps, hq, except_bind_error] at h
    | ok t =>
      cases hs : store_query_result_maps env coords radius gp rest with
      | error e => simp [store_query_result_maps, hq, except_bind_ok, hs, except_map_error] at h
      | ok tail =>
        have hspec := ih tail hs
        simp only [store_query_result_maps, hq, hs, except_bind_ok, except_map_ok, except_pure,
          Except.ok.injEq] at h
        subst h
        refine ⟨?_, ?_, ?_⟩
        · intro p hp
          by_cases hlen : 0 < t.len
          · rw [if_pos hlen] at hp
            rcases List.mem_cons.mp hp with h1 | h1
            · rw [h1]; exact hlen
            · exact hspec.1 p h1
          · rw [if_neg hlen] at hp
            exact hspec.1 p hp
        · intro m' hm'
          rcases List.mem_cons.mp hm' with h1 | h1
          · exact h1 ▸ ⟨t, hq⟩
          · exact hspec.2.1 m' h1
        · intro m' hm' t' hq' hlen'
          rcases List.mem_cons.mp hm' with h1 | h1
          · subst h1
            have ht : t' = t := by
              rw [hq] at hq'
              exact (Except.ok.injEq _ _).mp hq'.symm
            subst ht
            rw [if_pos hlen']
            exact List.mem_cons_self _ _
          · have := hspec.2.2 m' h1 t' hq' hlen'
            by_cases hlen : 0 < t.len
            · rw [if_pos hlen]; exact List.mem_cons_of_mem _ this
            · rw [if_neg hlen]; exact this

/-- The catalogs analogue of `store_maps_ok_spec`. -/
theorem store_catalogs_ok_spec (env : Env) (coords : Coord) (radius : String) (gp : Bool) :
    ∀ (catalogs : List String) (result : List (String × MissionTable)),
      store_query_result_catalogs env coords radius gp catalogs = .ok result →
      (∀ p ∈ result, 0 < p.2.len) ∧
      (∀ c ∈ catalogs, ∃ t, query_region_catalog_single env coords radius c gp = .ok t) ∧
      (∀ c ∈ catalogs, ∀ t, query_region_catalog_single env coords radius c gp = .ok t →
        0 < t.len → (pyUpper c, t) ∈ result) := by
  intro catalogs
  induction catalogs with
  | nil =>
    intro result h
    simp only [store_query_result_catalogs, Except.ok.injEq] at h
    subst h
    exact ⟨by simp, by simp, by simp⟩
  | cons m rest ih =>
    intro result h
    cases hq : query_region_catalog_single env coords radius m gp with
    | error e => simp [store_query_result_catalogs, hq, except_bind_error] at h
    | ok t =>
      cases hs : store_query_result_catalogs env coords radius gp rest with
      | error e => simp [store_query_result_catalogs, hq, except_bind_ok, hs, except_map_error] at h
      | ok tail =>
        have hspec := ih tail hs
        simp only [store_query_result_catalogs, hq, hs, except_bind_ok, except_map_ok, except_pure,
          Except.ok.injEq] at h
        subst h
        refine ⟨?_, ?_, ?_⟩
        · intro p hp
          by_cases hlen : 0 < t.len
          · rw [if_pos hlen] at hp
            rcases List.mem_cons.mp hp with h1 | h1
            · rw [h1]; exact hlen
            · exact hspec.1 p h1
          · rw [if_neg hlen] at hp
            exact hspec.1 p hp
        · intro m' hm'
          rcases List.mem_cons.mp hm' with h1 | h1
          · exact h1 ▸ ⟨t, hq⟩
          · exact hspec.2.1 m' h1
        · intro m' hm' t' hq' hlen'
          rcases List.mem_cons.mp hm' with h1 | h1
          · subst h1
            have ht : t' = t := by
              rw [hq] at hq'
              exact (Except.ok.injEq _ _).mp hq'.symm
            subst ht
            rw [if_pos hlen']
            exact List.mem_cons_self _ _
          · have := hspec.2.2 m' h1 t' hq' hlen'
            by_cases hlen : 0 < t.len
            · rw [if_pos hlen]; exact List.mem_cons_of_mem _ this
            · rw [if_neg hlen]; exact this

/-- C5: confirmed — on a successful non-payload region query, every
stored mapping value has a positive row count (no zero-row mission gets
an entry), and every mission/catalog whose per-mission table is non-empty
appears under its upper-cased name. -/
theorem store_query_result_skips_empty_tables
    (env : Env) (coords : Coord) (radius : String)
    (missions catalogs : List String)
    (resultM resultC : List (String × MissionTable))
    (hM : store_query_result_maps env coords radius false missions = .ok resultM)
    (hC : store_query_result_catalogs env coords radius false catalogs = .ok resultC) :
    (∀ p ∈ resultM, 0 < p.2.len) ∧
    (∀ p ∈ resultC, 0 < p.2.len) ∧
    (∀ m ∈ missions, ∀ t, query_region_maps_single env coords radius m false = .ok t →
      0 < t.len → (pyUpper m, t) ∈ resultM) ∧
    (∀ c ∈ catalogs, ∀ t, query_region_catalog_single env coords radius c false = .ok t →
      0 < t.len → (pyUpper c, t) ∈ resultC) :=
  ⟨(store_maps_ok_spec env coords radius false missions resultM hM).1,
   (store_catalogs_ok_spec env coords radius false catalogs resultC hC).1,
   (store_maps_ok_spec env coords radius false missions resultM hM).2.2,
   (store_catalogs_ok_spec env coords radius false catalogs resultC hC).2.2⟩

/-- C5 witness: two missions and two catalogs, one of each returning zero
rows; the zero-row ones (`XMM`, `Gaia`) get no entry, the non-empty ones
are stored under their upper-cased names. -/
theorem store_query_result_skips_empty_tables_witness :
    (pyUpper "HST", MissionTable.table ["row"]) ∈ [("HST", MissionTable.table ["row"])] :=
  (store_query_result_skips_empty_tables envZero (envZero.parseCoord "m101") "1 arcmin"
      ["HST", "XMM"] ["HSC", "Gaia"]
      [("HST", MissionTable.table ["row"])] [("HSC", MissionTable.table ["row"])]
      (by decide) (by decide)).2.2.1
    "HST" (by decide) (MissionTable.table ["row"]) (by decide) (by decide)

/-- In payload mode the per-mission helper returns the request payload of
its built query. -/
theorem query_region_maps_single_payload_shape
    (env : Env) (coords : Coord) (radius : String) (m : String) (t : MissionTable)
    (h : query_region_maps_single env coords radius m true = .ok t) :
    ∃ q, t = .payload (create_request_payload q) := by
  cases h1 : find_mission_tap_table_name env.observations m with
  | error e => simp [query_region_maps_single, h1, except_bind_error] at h
  | ok tap =>
    cases h2 : find_mission_parameters_in_json tap env.observations with
    | error e => simp [query_region_maps_single, h1, except_bind_ok, h2, except_map_error] at h
    | ok params =>
      simp only [query_region_maps_single, h1, h2, except_bind_ok, except_map_ok, except_pure,
        if_true, Except.ok.injEq] at h
      exact ⟨build_observation_query env coords radius params, h.symm⟩

/-- C10: confirmed — a payload-only region query stores, for every
requested mission that resolves, the fixed four-key request payload under
the upper-cased mission name: the zero-row filter never removes an entry
because the payload dict always has length 4. -/
theorem query_region_maps_payload_mode_keeps_all
    (env : Env) (position radius : String) (missions : List String)
    (result : List (String × MissionTable))
    (h : query_region_maps env position radius (.list missions) true =
      .ok (.payloadDict result)) :
    ∀ m ∈ missions, ∃ q,
      (pyUpper m, MissionTable.payload (create_request_payload q)) ∈ result ∧
      (create_request_payload q).length = 4 := by
  have hstore : store_query_result_maps env (env.parseCoord position) radius true missions =
      .ok result := by
    cases hs : store_query_result_maps env (env.parseCoord position) radius true missions with
    | error e =>
      simp [query_region_maps, sanatize_input_mission, except_bind_ok, hs,
        except_map_error] at h
    | ok qr =>
      simp only [query_region_maps, sanatize_input_mission, except_bind_ok, hs,
        except_map_ok, except_pure, if_true, Except.ok.injEq,
        RegionResult.payloadDict.injEq] at h
      rw [h]
  intro m hm
  obtain ⟨t, ht⟩ :=
    (store_maps_ok_spec env (env.parseCoord position) radius true missions result hstore).2.1 m hm
  obtain ⟨q, hq⟩ := query_region_maps_single_payload_shape env (env.parseCoord position)
    radius m t ht
  refine ⟨q, ?_, rfl⟩
  have hlen : 0 < t.len := by
    rw [hq]
    simp [MissionTable.len, create_request_payload]
  have := (store_maps_ok_spec env (env.parseCoord position) radius true missions result
    hstore).2.2 m hm t ht hlen
  rwa [hq] at this

/-- C10 witness: the demo `HST` payload query keeps its (four-key)
payload entry. -/
theorem query_region_maps_payload_mode_witness :
    ∃ q, (pyUpper "HST", MissionTable.payload (create_request_payload q)) ∈
      demoMapPayloadResult ∧ (create_request_payload q).length = 4 :=
  query_region_maps_payload_mode_keeps_all envDemo "m101" "14 arcmin" ["HST"]
    demoMapPayloadResult (by decide) "HST" (by decide)

/-! ## C8 -/

/-- The Herschel member loop, from running filter index `i`: when enough
filter names remain it pairs them positionally with the matching members,
when too few remain it raises `IndexError`. -/
theorem herschel_loop_spec (dir : String) (filters : List String) :
    ∀ (members : List String) (i : Nat),
      (∀ m ∈ members, isHerschelMember m = true →
        remove_extra_herschel_directory m = .ok (stripTopDir m)) →
      (i + (members.filter (fun m => isHerschelMember m)).length ≤ filters.length →
        herschel_loop dir filters members i =
          .ok (((filters.drop i).take
              (members.filter (fun m => isHerschelMember m)).length).zip
            ((members.filter (fun m => isHerschelMember m)).map
              (fun m => dir ++ stripTopDir m)))) ∧
      (filters.length < i + (members.filter (fun m => isHerschelMember m)).length →
        0 < (members.filter (fun m => isHerschelMember m)).length →
        herschel_loop dir filters members i = .error (.indexError "list index out of range")) := by
  intro members
  induction members with
  | nil =>
    intro i hslash
    refine ⟨fun hle => by simp [herschel_loop], fun hlt hpos => by simp at hpos⟩
  | cons m rest ih =>
    intro i hslash
    have hrest : ∀ m' ∈ rest, isHerschelMember m' = true →
        remove_extra_herschel_directory m' = .ok (stripTopDir m') :=
      fun m' hm' => hslash m' (List.mem_cons_of_mem _ hm')
    by_cases hm : isHerschelMember m = true
    · have hrm := hslash m (List.mem_cons_self _ _) hm
      have hfilter : (m :: rest).filter (fun x => isHerschelMember x) =
          m :: rest.filter (fun x => isHerschelMember x) := by
        rw [List.filter_cons, if_pos hm]
      constructor
      · intro hle
        rw [hfilter] at hle ⊢
        simp only [List.length_cons] at hle
        have hi : i < filters.length := by omega
        have hget : filters[i]? = some filters[i] := List.getElem?_eq_getElem hi
        have htail := ((ih (i + 1) hrest).1 (by omega))
        simp only [herschel_loop, hm, if_true, hrm, hget, htail]
        rw [List.drop_eq_getElem_cons hi]
        simp only [List.length_cons, List.take_succ_cons, List.map_cons, List.zip_cons_cons]
      · intro hlt hpos
        rw [hfilter] at hlt
        simp only [List.length_cons] at hlt
        by_cases hi : i < filters.length
        · have hget : filters[i]? = some filters[i] := List.getElem?_eq_getElem hi
          have htail := (ih (i + 1) hrest).2 (by omega) (by omega)
          simp only [herschel_loop, hm, if_true, hrm, hget, htail]
        · have hget : filters[i]? = none := List.getElem?_eq_none (by omega)
          simp only [herschel_loop, hm, if_true, hrm, hget]
    · have hfilter : (m :: rest).filter (fun x => isHerschelMember x) =
          rest.filter (fun x => isHerschelMember x) := by
        rw [List.filter_cons, if_neg hm]
      have hloop : herschel_loop dir filters (m :: rest) i =
          herschel_loop dir filters rest i := by
        simp only [herschel_loop, hm, if_false, Bool.false_eq_true]
      rw [hfilter, hloop]
      exact ih i hrest

/-- C8: confirmed — on an archive whose matching members each contain a
directory separator, `_get_herschel_observation` pairs the first N filter
names, in enumeration order, with the N matching members' opened
products, and raises `IndexError` when fewer than N filter names are
supplied. -/
theorem get_herschel_observation_positional_pairing
    (members filters : List String) (dir : String)
    (hslash : ∀ m ∈ members, isHerschelMember m = true →
      remove_extra_herschel_directory m = .ok (stripTopDir m)) :
    ((members.filter (fun m => isHerschelMember m)).length ≤ filters.length →
      get_herschel_observation members dir filters =
        .ok ((filters.take (members.filter (fun m => isHerschelMember m)).length).zip
          ((members.filter (fun m => isHerschelMember m)).map
            (fun m => dir ++ stripTopDir m)))) ∧
    (filters.length < (members.filter (fun m => isHerschelMember m)).length →
      get_herschel_observation members dir filters =
        .error (.indexError "list index out of range")) := by
  have hspec := herschel_loop_spec dir filters members 0 hslash
  constructor
  · intro hle
    have := hspec.1 (by omega)
    rwa [List.drop_zero] at this
  · intro hlt
    exact hspec.2 (by omega) (by omega)

/-- C8 witness: two matching members among three, two filter names. -/
theorem get_herschel_observation_positional_pairing_witness :
    get_herschel_observation ["hpacs_a/level2/map1.fits", "readme.txt", "HSPIRE_b/level2/map2.fits"]
      "Maps/HERSCHEL/" ["red", "blue"] =
      .ok ((["red", "blue"].take
          ((["hpacs_a/level2/map1.fits", "readme.txt", "HSPIRE_b/level2/map2.fits"].filter
            (fun m => isHerschelMember m)).length)).zip
        ((["hpacs_a/level2/map1.fits", "readme.txt", "HSPIRE_b/level2/map2.fits"].filter
          (fun m => isHerschelMember m)).map (fun m => "Maps/HERSCHEL/" ++ stripTopDir m))) :=
  (get_herschel_observation_positional_pairing
    ["hpacs_a/level2/map1.fits", "readme.txt", "HSPIRE_b/level2/map2.fits"]
    ["red", "blue"] "Maps/HERSCHEL/" (by decide)).1 (by decide)

/-! ## C9 -/

/-- C9: refuted as stated — on the header value `filename=` (which
contains `filename=` and no recognized suffix after the name start) the
name-start character access `content_disposition[start_index]` raises
`IndexError`, not `ValueError`. -/
theorem extract_file_name_indexerror_edge :
    isValueError (extract_file_name_from_response_header "filename=") = false ∧
    extract_file_name_from_response_header "filename=" =
      .error (.indexError "string index out of range") := by
  decide

/-- C9 amended: `attachment; filename="obs123.fits"` yields
`obs123.fits`; and on every header value containing `filename=` whose
name-start position is still within the string but with no recognized
`.fits`/`.FTZ`/`.tar` suffix at or after the (optionally quote-stripped)
name start, extraction raises `ValueError`. -/
theorem extract_file_name_cases :
    extract_file_name_from_response_header "attachment; filename=\"obs123.fits\"" =
      .ok "obs123.fits" ∧
    (∀ (cd : String) (i : Nat) (c : Char),
      firstOcc "filename=".data cd.data 0 = some i →
      cd.data[i + 9]? = some c →
      pyIn ".fits".data (cd.data.drop (if c = '"' then i + 9 + 1 else i + 9)) = false →
      pyIn ".FTZ".data (cd.data.drop (if c = '"' then i + 9 + 1 else i + 9)) = false →
      pyIn ".tar".data (cd.data.drop (if c = '"' then i + 9 + 1 else i + 9)) = false →
      extract_file_name_from_response_header cd =
        .error (.valueError ("Could not find file name in header. Content disposition: " ++
          cd ++ "."))) := by
  constructor
  · decide
  · intro cd i c h1 h2 h3 h4 h5
    simp only [extract_file_name_from_response_header, h1, h2, h3, h4, h5, Bool.false_eq_true,
      if_false]

/-- C9 amended witness: a header with `filename=` but no recognized
suffix raises the `ValueError` branch. -/
theorem extract_file_name_cases_witness :
    extract_file_name_from_response_header "Content: filename=data.txt" =
      .error (.valueError ("Could not find file name in header. Content disposition: " ++
        "Content: filename=data.txt" ++ ".")) :=
  extract_file_name_cases.2 "Content: filename=data.txt" 9 'd'
    (by decide) (by decide) (by decide) (by decide) (by decide)

/-! ## C6 -/

/-- The column-list loop produces a leading space and the comma-joined
names with no trailing comma. -/
theorem metadata_tap_names_eq : ∀ (names : List String), names ≠ [] →
    metadata_tap_names names = " " ++ commaJoin names
  | [], h => absurd rfl h
  | [_], _ => rfl
  | x :: y :: r, _ => by
    have ih := metadata_tap_names_eq (y :: r) (by simp)
    show " " ++ x ++ "," ++ metadata_tap_names (y :: r) =
      " " ++ (x ++ ", " ++ commaJoin (y :: r))
    rw [ih]
    apply String.ext
    simp only [String.data_append, List.append_assoc]
    rfl

/-- C6: confirmed — for every descriptor with at least one metadata
column, the emitted observation query is exactly
`SELECT DISTINCT <cols> FROM <tap_table> WHERE 1=CONTAINS(<pos|fov>,
CIRCLE('ICRS', ra, dec, r));` with the spatial column `pos` iff
`isSurveyMission`, right ascension the hour value times 15, the radius
converted to degrees, and the column list comma-joined in metadata order
with no trailing comma. -/
theorem build_observation_query_shape
    (env : Env) (coordinates : Coord) (radius : String) (d : RegistryEntry)
    (h : d.metadata ≠ []) :
    build_observation_query env coordinates radius d =
      "SELECT DISTINCT " ++ commaJoin d.metadata ++ " FROM " ++ d.tapTable ++
      " WHERE 1=CONTAINS(" ++ (if d.isSurveyMission then "pos" else "fov") ++
      ", CIRCLE('ICRS', " ++ env.fmt (coordinates.raHours * 15) ++ ", " ++
      env.fmt coordinates.dec ++ ", " ++ env.fmt (env.radiusToDeg radius) ++ "));" := by
  have hm := metadata_tap_names_eq d.metadata h
  cases hs : d.isSurveyMission
  · simp only [build_observation_query, hs, Bool.false_eq_true, if_false, hm]
    apply String.ext
    simp only [String.data_append, List.append_assoc]
    rfl
  · simp only [build_observation_query, hs, if_true, hm]
    apply String.ext
    simp only [String.data_append, List.append_assoc]
    rfl

/-- C6 witness at the demo descriptor (two metadata columns, non-survey
mission, so the `fov` column is used). -/
theorem build_observation_query_shape_witness :
    build_observation_query envDemo { raHours := 10, dec := 69 } "14 arcmin" obsEntryDemo =
      "SELECT DISTINCT " ++ commaJoin obsEntryDemo.metadata ++ " FROM " ++
      obsEntryDemo.tapTable ++ " WHERE 1=CONTAINS(" ++
      (if obsEntryDemo.isSurveyMission then "pos" else "fov") ++
      ", CIRCLE('ICRS', " ++ envDemo.fmt (10 * 15) ++ ", " ++ envDemo.fmt 69 ++ ", " ++
      envDemo.fmt (envDemo.radiusToDeg "14 arcmin") ++ "));" :=
  build_observation_query_shape envDemo { raHours := 10, dec := 69 } "14 arcmin"
    obsEntryDemo (by decide)

/-! ## C7: occurrence-counting machinery -/

/-- The empty pattern is a prefix of everything. -/
theorem nil_isPrefixOf (l : List Char) : List.isPrefixOf [] l = true := by
  cases l <;> rfl

/-- `isPrefixOf` survives extending the list on the right. -/
theorem isPrefixOf_append_of_isPrefixOf : ∀ (p l r : List Char),
    p.isPrefixOf l = true → p.isPrefixOf (l ++ r) = true
  | [], l, r, _ => nil_isPrefixOf (l ++ r)
  | _ :: _, l, r, h => by
    cases l with
    | nil => simp [List.isPrefixOf] at h
    | cons d l' =>
      simp only [List.isPrefixOf, List.cons_append, Bool.and_eq_true] at h ⊢
      exact ⟨h.1, isPrefixOf_append_of_isPrefixOf _ l' r h.2⟩

/-- A pattern short enough to fit in the left part of an append is a
prefix of the whole iff of the left part (one direction). -/
theorem isPrefixOf_of_append_le : ∀ (p l r : List Char),
    p.isPrefixOf (l ++ r) = true → p.length ≤ l.length → p.isPrefixOf l = true
  | [], l, _, _, _ => nil_isPrefixOf l
  | c :: p', l, r, h, hlen => by
    cases l with
    | nil => simp at hlen
    | cons d l' =>
      simp only [List.isPrefixOf, List.cons_append, Bool.and_eq_true] at h ⊢
      refine ⟨h.1, isPrefixOf_of_append_le p' l' r h.2 ?_⟩
      simp only [List.length_cons] at hlen
      omega

/-- If the pattern overruns the left part of an append, the left part is
a prefix of the pattern. -/
theorem shorter_isPrefixOf_of_append : ∀ (l p r : List Char),
    p.isPrefixOf (l ++ r) = true → l.length < p.length → l.isPrefixOf p = true
  | [], p, _, _, _ => nil_isPrefixOf p
  | d :: l', p, r, h, hlen => by
    cases p with
    | nil => simp at hlen
    | cons c p' =>
      simp only [List.isPrefixOf, List.cons_append, Bool.and_eq_true, beq_iff_eq] at h ⊢
      refine ⟨(h.1).symm, shorter_isPrefixOf_of_append l' p' r h.2 ?_⟩
      simp only [List.length_cons] at hlen
      omega

/-- The head of a nonempty tail of `L` is an element of `L`. -/
theorem head_mem_of_mem_tails : ∀ (L t : List Char), t ∈ L.tails →
    ∀ (c : Char) (t' : List Char), t = c :: t' → c ∈ L
  | [], t, ht, c, t', htc => by
    simp only [List.tails] at ht
    simp only [List.mem_singleton] at ht
    subst ht
    simp at htc
  | d :: L', t, ht, c, t', htc => by
    rw [List.tails_cons] at ht
    rcases List.mem_cons.mp ht with h1 | h1
    · subst h1
      injection htc with h2 _
      subst h2
      exact List.mem_cons_self _ _
    · exact List.mem_cons_of_mem _ (head_mem_of_mem_tails L' t h1 c t' htc)

/-- A chunk avoiding the pattern's first character cannot host the start
of an occurrence. -/
theorem goodCut_of_head_notin (c₀ : Char) (p' L : List Char) (h : c₀ ∉ L) :
    GoodCut (c₀ :: p') L := by
  intro t ht htne _ hpre
  cases t with
  | nil => exact htne rfl
  | cons x t' =>
    have hx : x ∈ L := head_mem_of_mem_tails L (x :: t') ht x t' rfl
    simp only [List.isPrefixOf, Bool.and_eq_true, beq_iff_eq] at hpre
    exact h (hpre.1 ▸ hx)

/-- A chunk avoiding the pattern's first character hosts no occurrence. -/
theorem countOcc_eq_zero_of_head_notin (c₀ : Char) (p' : List Char) :
    ∀ (L : List Char), c₀ ∉ L → countOcc (c₀ :: p') L = 0
  | [], _ => rfl
  | d :: L', h => by
    have hd : ¬ ((c₀ :: p').isPrefixOf (d :: L') = true) := by
      simp only [List.isPrefixOf, Bool.and_eq_true, beq_iff_eq]
      rintro ⟨h1, -⟩
      exact h (h1 ▸ List.mem_cons_self d L')
    simp only [countOcc, if_neg hd,
      countOcc_eq_zero_of_head_notin c₀ p' L' (fun hm => h (List.mem_cons_of_mem _ hm))]

/-- Splitting an occurrence count at a cut no occurrence crosses. -/
theorem countOcc_append (p : List Char) (hp : p ≠ []) :
    ∀ (L R : List Char), GoodCut p L →
      countOcc p (L ++ R) = countOcc p L + countOcc p R
  | [], R, _ => by simp [countOcc]
  | c :: L', R, hgood => by
    have hgood' : GoodCut p L' := by
      intro t ht h1 h2
      exact hgood t (by rw [List.tails_cons]; exact List.mem_cons_of_mem _ ht) h1 h2
    have hIH := countOcc_append p hp L' R hgood'
    have hiff : p.isPrefixOf (c :: (L' ++ R)) = p.isPrefixOf (c :: L') := by
      by_cases hcl : p.isPrefixOf (c :: L') = true
      · rw [hcl]
        have := isPrefixOf_append_of_isPrefixOf p (c :: L') R hcl
        simpa using this
      · by_cases hclr : p.isPrefixOf (c :: (L' ++ R)) = true
        · exfalso
          by_cases hlen : p.length ≤ (c :: L').length
          · exact hcl (isPrefixOf_of_append_le p (c :: L') R (by simpa using hclr) hlen)
          · have hsh := shorter_isPrefixOf_of_append (c :: L') p R (by simpa using hclr)
              (by omega)
            exact hgood (c :: L') (by rw [List.tails_cons]; exact List.mem_cons_self _ _)
              (by simp) (by omega) hsh
        · rw [Bool.not_eq_true] at hcl hclr
          rw [hcl, hclr]
    show (if p.isPrefixOf (c :: (L' ++ R)) = true then 1 else 0) + countOcc p (L' ++ R) =
      ((if p.isPrefixOf (c :: L') = true then 1 else 0) + countOcc p L') + countOcc p R
    rw [hiff, hIH]
    omega

/-- One peeling step: a chunk with a known count and a safe cut. -/
theorem countOcc_chunk_step (p : List Char) (hp : p ≠ []) (L R : List Char)
    (good : GoodCut p L) (n : Nat) (hn : countOcc p L = n) :
    countOcc p (L ++ R) = n + countOcc p R := by
  rw [countOcc_append p hp L R good, hn]

/-- Every character of the built column list is a space, a comma, or a
character of one of the names. -/
theorem mem_data_metadata_tap_names : ∀ (names : List String) (c : Char),
    c ∈ (metadata_tap_names names).data →
    c = ' ' ∨ c = ',' ∨ ∃ n ∈ names, c ∈ n.data
  | [], c, h => by simp [metadata_tap_names] at h
  | [x], c, h => by
    simp only [metadata_tap_names, String.data_append] at h
    rcases List.mem_append.mp h with h1 | h1
    · left
      simpa using h1
    · right; right
      exact ⟨x, by simp, h1⟩
  | x :: y :: r, c, h => by
    simp only [metadata_tap_names, String.data_append, List.append_assoc] at h
    rcases List.mem_append.mp h with h1 | h1
    · left
      simpa using h1
    rcases List.mem_append.mp h1 with h2 | h2
    · right; right
      exact ⟨x, by simp, h2⟩
    rcases List.mem_append.mp h2 with h3 | h3
    · right; left
      simpa using h3
    · rcases mem_data_metadata_tap_names (y :: r) c h3 with h4 | h4 | ⟨n, hn, hcn⟩
      · left; exact h4
      · right; left; exact h4
      · right; right
        exact ⟨n, List.mem_cons_of_mem _ hn, hcn⟩

/-- A character other than space and comma avoided by every name is
avoided by the built column list. -/
theorem not_mem_metadata_tap_names (names : List String) (c : Char)
    (hcs : c ≠ ' ') (hcc : c ≠ ',') (h : ∀ n ∈ names, c ∉ n.data) :
    c ∉ (metadata_tap_names names).data := fun hc => by
  rcases mem_data_metadata_tap_names names c hc with h1 | h1 | ⟨n, hn, hcn⟩
  exacts [hcs h1, hcc h1, h n hn hcn]

/-- C7: confirmed — for every catalog descriptor whose identifier fields
and formatted numbers avoid the capitals `O` and `T` (as all real TAP
identifiers do), the emitted catalog query contains exactly one
`ORDER BY` clause (naming the descriptor's order-by column) and exactly
one `TOP <N>` clause with `N` the descriptor's `sourceLimit`. -/
theorem build_catalog_query_clauses
    (env : Env) (coordinates : Coord) (radius : String) (d : RegistryEntry)
    (h1 : cleanChars d.tapTable) (h2 : cleanChars d.posTapColumn)
    (h3 : cleanChars d.orderBy) (h4 : ∀ n ∈ d.metadata, cleanChars n)
    (h5 : cleanChars (toString d.sourceLimit))
    (h6 : cleanChars (env.fmt (coordinates.raHours * 15)))
    (h7 : cleanChars (env.fmt coordinates.dec))
    (h8 : cleanChars (env.fmt (env.radiusToDeg radius))) :
    countOcc "ORDER BY".data (build_catalog_query env coordinates radius d).data = 1 ∧
    countOcc "TOP ".data (build_catalog_query env coordinates radius d).data = 1 ∧
    (∃ rest : String, build_catalog_query env coordinates radius d =
      "SELECT TOP " ++ toString d.sourceLimit ++ " " ++ rest) ∧
    (∃ pre : String, build_catalog_query env coordinates radius d =
      pre ++ " ORDER BY " ++ d.orderBy ++ ";") := by
  have hmtnO : 'O' ∉ (metadata_tap_names d.metadata).data :=
    not_mem_metadata_tap_names d.metadata 'O' (by decide) (by decide)
      (fun n hn => (h4 n hn).1)
  have hmtnT : 'T' ∉ (metadata_tap_names d.metadata).data :=
    not_mem_metadata_tap_names d.metadata 'T' (by decide) (by decide)
      (fun n hn => (h4 n hn).2)
  have hdata : (build_catalog_query env coordinates radius d).data =
      "SELECT TOP ".data ++ ((toString d.sourceLimit).data ++ (" ".data ++
      ((metadata_tap_names d.metadata).data ++ (" FROM ".data ++ (d.tapTable.data ++
      (" WHERE 1=CONTAINS(".data ++ (d.posTapColumn.data ++ (", CIRCLE('ICRS', ".data ++
      ((env.fmt (coordinates.raHours * 15)).data ++ (", ".data ++
      ((env.fmt coordinates.dec).data ++ (", ".data ++
      ((env.fmt (env.radiusToDeg radius)).data ++ ("))".data ++
      (" ORDER BY ".data ++ (d.orderBy.data ++ ";".data)))))))))))))))) := by
    simp only [build_catalog_query, String.data_append, List.append_assoc]
  refine ⟨?_, ?_, ?_, ?_⟩
  · rw [hdata]
    rw [countOcc_chunk_step "ORDER BY".data (by decide) "SELECT TOP ".data _
      (by decide) 0 (by decide)]
    rw [countOcc_chunk_step "ORDER BY".data (by decide) (toString d.sourceLimit).data _
      (goodCut_of_head_notin 'O' _ _ h5.1) 0
      (countOcc_eq_zero_of_head_notin 'O' _ _ h5.1)]
    rw [countOcc_chunk_step "ORDER BY".data (by decide) " ".data _ (by decide) 0 (by decide)]
    rw [countOcc_chunk_step "ORDER BY".data (by decide) (metadata_tap_names d.metadata).data _
      (goodCut_of_head_notin 'O' _ _ hmtnO) 0
      (countOcc_eq_zero_of_head_notin 'O' _ _ hmtnO)]
    rw [countOcc_chunk_step "ORDER BY".data (by decide) " FROM ".data _
      (by decide) 0 (by decide)]
    rw [countOcc_chunk_step "ORDER BY".data (by decide) d.tapTable.data _
      (goodCut_of_head_notin 'O' _ _ h1.1) 0
      (countOcc_eq_zero_of_head_notin 'O' _ _ h1.1)]
    rw [countOcc_chunk_step "ORDER BY".data (by decide) " WHERE 1=CONTAINS(".data _
      (by decide) 0 (by decide)]
    rw [countOcc_chunk_step "ORDER BY".data (by decide) d.posTapColumn.data _
      (goodCut_of_head_notin 'O' _ _ h2.1) 0
      (countOcc_eq_zero_of_head_notin 'O' _ _ h2.1)]
    rw [countOcc_chunk_step "ORDER BY".data (by decide) ", CIRCLE('ICRS', ".data _
      (by decide) 0 (by decide)]
    rw [countOcc_chunk_step "ORDER BY".data (by decide)
      (env.fmt (coordinates.raHours * 15)).data _
      (goodCut_of_head_notin 'O' _ _ h6.1) 0
      (countOcc_eq_zero_of_head_notin 'O' _ _ h6.1)]
    rw [countOcc_chunk_step "ORDER BY".data (by decide) ", ".data _ (by decide) 0 (by decide)]
    rw [countOcc_chunk_step "ORDER BY".data (by decide) (env.fmt coordinates.dec).data _
      (goodCut_of_head_notin 'O' _ _ h7.1) 0
      (countOcc_eq_zero_of_head_notin 'O' _ _ h7.1)]
    rw [countOcc_chunk_step "ORDER BY".data (by decide) ", ".data _ (by decide) 0 (by decide)]
    rw [countOcc_chunk_step "ORDER BY".data (by decide)
      (env.fmt (env.radiusToDeg radius)).data _
      (goodCut_of_head_notin 'O' _ _ h8.1) 0
      (countOcc_eq_zero_of_head_notin 'O' _ _ h8.1)]
    rw [countOcc_chunk_step "ORDER BY".data (by decide) "))".data _ (by decide) 0 (by decide)]
    rw [countOcc_chunk_step "ORDER BY".data (by decide) " ORDER BY ".data _
      (by decide) 1 (by decide)]
    rw [countOcc_chunk_step "ORDER BY".data (by decide) d.orderBy.data _
      (goodCut_of_head_notin 'O' _ _ h3.1) 0
      (countOcc_eq_zero_of_head_notin 'O' _ _ h3.1)]
    have hsemi : countOcc "ORDER BY".data ";".data = 0 := by decide
    rw [hsemi]
  · rw [hdata]
    rw [countOcc_chunk_step "TOP ".data (by decide) "SELECT TOP ".data _
      (by decide) 1 (by decide)]
    rw [countOcc_chunk_step "TOP ".data (by decide) (toString d.sourceLimit).data _
      (goodCut_of_head_notin 'T' _ _ h5.2) 0
      (countOcc_eq_zero_of_head_notin 'T' _ _ h5.2)]
    rw [countOcc_chunk_step "TOP ".data (by decide) " ".data _ (by decide) 0 (by decide)]
    rw [countOcc_chunk_step "TOP ".data (by decide) (metadata_tap_names d.metadata).data _
      (goodCut_of_head_notin 'T' _ _ hmtnT) 0
      (countOcc_eq_zero_of_head_notin 'T' _ _ hmtnT)]
    rw [countOcc_chunk_step "TOP ".data (by decide) " FROM ".data _ (by decide) 0 (by decide)]
    rw [countOcc_chunk_step "TOP ".data (by decide) d.tapTable.data _
      (goodCut_of_head_notin 'T' _ _ h1.2) 0
      (countOcc_eq_zero_of_head_notin 'T' _ _ h1.2)]
    rw [countOcc_chunk_step "TOP ".data (by decide) " WHERE 1=CONTAINS(".data _
      (by decide) 0 (by decide)]
    rw [countOcc_chunk_step "TOP ".data (by decide) d.posTapColumn.data _
      (goodCut_of_head_notin 'T' _ _ h2.2) 0
      (countOcc_eq_zero_of_head_notin 'T' _ _ h2.2)]
    rw [countOcc_chunk_step "TOP ".data (by decide) ", CIRCLE('ICRS', ".data _
      (by decide) 0 (by decide)]
    rw [countOcc_chunk_step "TOP ".data (by decide)
      (env.fmt (coordinates.raHours * 15)).data _
      (goodCut_of_head_notin 'T' _ _ h6.2) 0
      (countOcc_eq_zero_of_head_notin 'T' _ _ h6.2)]
    rw [countOcc_chunk_step "TOP ".data (by decide) ", ".data _ (by decide) 0 (by decide)]
    rw [countOcc_chunk_step "TOP ".data (by decide) (env.fmt coordinates.dec).data _
      (goodCut_of_head_notin 'T' _ _ h7.2) 0
      (countOcc_eq_zero_of_head_notin 'T' _ _ h7.2)]
    rw [countOcc_chunk_step "TOP ".data (by decide) ", ".data _ (by decide) 0 (by decide)]
    rw [countOcc_chunk_step "TOP ".data (by decide)
      (env.fmt (env.radiusToDeg radius)).data _
      (goodCut_of_head_notin 'T' _ _ h8.2) 0
      (countOcc_eq_zero_of_head_notin 'T' _ _ h8.2)]
    rw [countOcc_chunk_step "TOP ".data (by decide) "))".data _ (by decide) 0 (by decide)]
    rw [countOcc_chunk_step "TOP ".data (by decide) " ORDER BY ".data _
      (by decide) 0 (by decide)]
    rw [countOcc_chunk_step "TOP ".data (by decide) d.orderBy.data _
      (goodCut_of_head_notin 'T' _ _ h3.2) 0
      (countOcc_eq_zero_of_head_notin 'T' _ _ h3.2)]
    have hsemi : countOcc "TOP ".data ";".data = 0 := by decide
    rw [hsemi]
  · refine ⟨metadata_tap_names d.metadata ++ " FROM " ++ d.tapTable ++
      " WHERE 1=CONTAINS(" ++ d.posTapColumn ++ ", CIRCLE('ICRS', " ++
      env.fmt (coordinates.raHours * 15) ++ ", " ++ env.fmt coordinates.dec ++ ", " ++
      env.fmt (env.radiusToDeg radius) ++ "))" ++ " ORDER BY " ++ d.orderBy ++ ";", ?_⟩
    simp only [build_catalog_query, String.append_assoc]
  · refine ⟨"SELECT TOP " ++ toString d.sourceLimit ++ " " ++
      metadata_tap_names d.metadata ++ " FROM " ++ d.tapTable ++
      " WHERE 1=CONTAINS(" ++ d.posTapColumn ++ ", CIRCLE('ICRS', " ++
      env.fmt (coordinates.raHours * 15) ++ ", " ++ env.fmt coordinates.dec ++ ", " ++
      env.fmt (env.radiusToDeg radius) ++ "))", ?_⟩
    simp only [build_catalog_query, String.append_assoc]

/-- C7 witness at the demo catalog descriptor. -/
theorem build_catalog_query_clauses_witness :
    countOcc "ORDER BY".data
      (build_catalog_query envDemo { raHours := 10, dec := 69 } "1 arcmin" catEntryDemo).data
      = 1 :=
  (build_catalog_query_clauses envDemo { raHours := 10, dec := 69 } "1 arcmin" catEntryDemo
    (by decide) (by decide) (by decide) (by decide) (by decide) (by decide) (by decide)
    (by decide)).1
